import Mathlib

/-!
Shallow embedding of libcmd (src/cmd.h, src/cmd.cpp): the class Cmd, a
supervisor for a single external shell command built on QProcess, QTimer,
QFile and QFileSystemWatcher.

Modelling conventions:
* The observable state of a Cmd object (together with the state of the Qt
  objects it owns) is the structure CmdState.  QProcess is represented by
  the fields procRunning, processId, exitCode, exitStatus; QTimer by
  timerActive and timerInterval; the fifo QFile by fifoFileName, fifoOpen,
  fifoExists, fifoContent; the QFileSystemWatcher by watchPaths (the paths
  registered with addPath), watchConnected (whether its fileChanged signal
  is connected to Cmd::fifoChanged) and watchBlocked (blockSignals).
* Qt signals emitted by Cmd are collected into a List Signal.
* OS interaction that the code observes only through return values is
  parametrised: OsAck describes whether a terminate/kill is acknowledged
  within the bounded wait and with which exit code / exit status the child
  dies; Bool parameters stand for the success of the system("kill -STOP" or "kill -CONT")
  dispatches; openOk stands for the success of QFile::open.
* The nested QEventLoop in Cmd::run (cmd.cpp lines 76-85) only quits when
  QProcess emits finished, so the loop is modelled by runLoop over a trace
  of the events the event loop delivers while run is blocked: stdout/stderr
  chunks, timer timeouts, and re-entrant terminate()/kill() calls made from
  slots.  The trace, the child's natural exit code/status and its pid form
  a ChildBehavior.
* qDebug diagnostics (gated by the debug level and the quiet flag) have no
  observable effect besides logging and are not modelled; the quiet logic in
  Cmd::run and Cmd::getExitCode only selects qDebug output, never the
  returned value.
-/

namespace Libcmd

/-- QProcess::ExitStatus: NormalExit has numeric value 0, CrashExit has 1. -/
inductive ExitStatus where
  | NormalExit
  | CrashExit
deriving DecidableEq

/-- Numeric value of the QProcess::ExitStatus enum. -/
def ExitStatus.toInt : ExitStatus → Int
  | .NormalExit => 0
  | .CrashExit => 1

/-- Observable state of a Cmd object and the Qt objects it owns. -/
structure CmdState where
  est_duration : Int
  elapsed_time : Int
  out : String
  err : String
  procRunning : Bool
  processId : Int
  exitCode : Int
  exitStatus : ExitStatus
  timerActive : Bool
  timerInterval : Int
  fifoFileName : String
  fifoOpen : Bool
  fifoExists : Bool
  fifoContent : String
  watchPaths : List String
  watchConnected : Bool
  watchBlocked : Bool
deriving DecidableEq

/-- Qt signals declared in cmd.h that Cmd emits. -/
inductive Signal where
  | started
  | finished (exit_code : Int) (exit_status : ExitStatus)
  | outputAvailable (chunk : String)
  | errorAvailable (chunk : String)
  | runTime (elapsed est : Int)
  | fifoChangeAvailable (content : String)
deriving DecidableEq

/-- OS acknowledgement of a terminate()/kill(): whether the child dies within
the bounded waitForFinished(1000), and if so with which exit code and status. -/
structure OsAck where
  dies : Bool
  code : Int
  status : ExitStatus
deriving DecidableEq

/-- Events the nested event loop of Cmd::run can deliver while blocked. -/
inductive LoopEvent where
  | stdoutData (chunk : String)
  | stderrData (chunk : String)
  | timerTimeout
  | callTerminate (ack : OsAck)
  | callKill (ack : OsAck)
deriving DecidableEq

/-- Behaviour of one spawned child process: its pid, the trace of events the
event loop delivers, its natural exit code and status (used when the trace is
exhausted without the child being brought down), and the OS acknowledgements
for the post-loop escalation in cmd.cpp lines 88-92. -/
structure ChildBehavior where
  pid : Int
  events : List LoopEvent
  code : Int
  status : ExitStatus
  postTermAck : OsAck
  postKillAck : OsAck
deriving DecidableEq

/-- Cmd::isRunning (cmd.cpp 220-223): the QProcess state is not NotRunning. -/
def isRunning (s : CmdState) : Bool :=
  s.procRunning

/-- Cmd::getExitCode (cmd.cpp 256-267): if the exit status is non-zero (the
process crashed, which can happen with exit code 0) return the exit status,
else return the exit code.  The quiet flag only gates qDebug output. -/
def getExitCode (s : CmdState) : Int :=
  if s.exitStatus.toInt ≠ 0 then s.exitStatus.toInt else s.exitCode

/-- QString::trimmed: the string with leading and trailing whitespace removed. -/
def trimmed (str : String) : String :=
  ⟨((str.data.dropWhile Char.isWhitespace).reverse.dropWhile Char.isWhitespace).reverse⟩

/-- Cmd::getOutput (cmd.cpp 182-185): the accumulated stdout buffer, trimmed. -/
def getOutput (s : CmdState) : String :=
  trimmed s.out

/-- Cmd::getError (cmd.cpp 250-253): the accumulated stderr buffer, trimmed. -/
def getError (s : CmdState) : String :=
  trimmed s.err

/-- Cmd::onStdoutAvailable (cmd.cpp 195-202): read all available stdout bytes,
emit outputAvailable if non-empty, append to the out buffer. -/
def onStdoutAvailable (s : CmdState) (line_out : String) : CmdState × List Signal :=
  ({ s with out := s.out ++ line_out },
    if line_out ≠ "" then [Signal.outputAvailable line_out] else [])

/-- Cmd::onStderrAvailable (cmd.cpp 204-211): read all available stderr bytes,
emit errorAvailable if non-empty, append to the err buffer. -/
def onStderrAvailable (s : CmdState) (line_err : String) : CmdState × List Signal :=
  ({ s with err := s.err ++ line_err },
    if line_err ≠ "" then [Signal.errorAvailable line_err] else [])

/-- Cmd::tick (cmd.cpp 214-217): emit runTime(++elapsed_time, est_duration). -/
def tick (s : CmdState) : CmdState × List Signal :=
  ({ s with elapsed_time := s.elapsed_time + 1 },
    [Signal.runTime (s.elapsed_time + 1) s.est_duration])

/-- A QTimer timeout reaches the tick slot only while the timer is active. -/
def timerTimeoutEvent (s : CmdState) : CmdState × List Signal :=
  if s.timerActive then tick s else (s, [])

/-- Delivery of n successive timer timeouts. -/
def timerEvents : Nat → CmdState → CmdState × List Signal
  | 0, s => (s, [])
  | n + 1, s =>
    let r := timerTimeoutEvent s
    let r2 := timerEvents n r.1
    (r2.1, r.2 ++ r2.2)

/-- Effect on the state of the child process reaching a terminal OS state:
QProcess becomes NotRunning with pid 0 and records the exit code and status,
and the connection made in the constructor (cmd.cpp line 35) stops the timer. -/
def childDeath (s : CmdState) (code : Int) (status : ExitStatus) : CmdState :=
  { s with procRunning := false, processId := 0, exitCode := code,
           exitStatus := status, timerActive := false }

/-- Cmd::kill (cmd.cpp 99-109): success (true) if not running; otherwise send
the kill signal, wait up to 1s for death (ack), emit finished with the
process's current exit code and status, and return whether it is now dead. -/
def kill (s : CmdState) (ack : OsAck) : Bool × CmdState × List Signal :=
  if !isRunning s then (true, s, [])
  else
    let s1 := if ack.dies then childDeath s ack.code ack.status else s
    (!isRunning s1, s1, [Signal.finished s1.exitCode s1.exitStatus])

/-- Cmd::terminate (cmd.cpp 112-122): success (true) if not running; otherwise
send the terminate signal, wait up to 1s for death (ack), emit finished with
the process's current exit code and status, and return whether it is now dead. -/
def terminate (s : CmdState) (ack : OsAck) : Bool × CmdState × List Signal :=
  if !isRunning s then (true, s, [])
  else
    let s1 := if ack.dies then childDeath s ack.code ack.status else s
    (!isRunning s1, s1, [Signal.finished s1.exitCode s1.exitStatus])

/-- Cmd::pause (cmd.cpp 156-166): failure (false) if not running; otherwise
stop the timer and send SIGSTOP via system(), returning whether the signal
dispatch succeeded. -/
def pause (s : CmdState) (stopSignalOk : Bool) : Bool × CmdState :=
  if !isRunning s then (false, s)
  else (stopSignalOk, { s with timerActive := false })

/-- Cmd::resume (cmd.cpp 169-179): failure (false) if the process id is 0;
otherwise restart the timer and send SIGCONT via system(), returning whether
the signal dispatch succeeded. -/
def resume (s : CmdState) (contSignalOk : Bool) : Bool × CmdState :=
  if s.processId = 0 then (false, s)
  else (contSignalOk, { s with timerActive := true })

/-- Cmd::writeToProc (cmd.cpp 124-130): forward bytes to the child's stdin;
silently do nothing if no child is running.  The child's stdin is outside the
modelled state, so only the no-op branch is observable. -/
def writeToProc (s : CmdState) (str : String) : CmdState :=
  if !isRunning s then s else s

/-- Cmd::fifoChanged (cmd.cpp 145-153): seek to the start, read the whole fifo
content, trim it, and emit fifoChangeAvailable if non-empty. -/
def fifoChanged (s : CmdState) : CmdState × List Signal :=
  let changed := trimmed s.fifoContent
  (s, if changed ≠ "" then [Signal.fifoChangeAvailable changed] else [])

/-- Reaction of the QFileSystemWatcher to a modification of the fifo file: its
fileChanged signal reaches Cmd::fifoChanged only if the fifo path is registered
with addPath, the signal is connected, and signals are not blocked. -/
def notifyWatch (s : CmdState) : CmdState × List Signal :=
  if s.watchPaths.contains s.fifoFileName && s.watchConnected && !s.watchBlocked then
    fifoChanged s
  else (s, [])

/-- Cmd::writeToFifo (cmd.cpp 132-142): if the fifo file does not exist, log
and return; otherwise call file_watch.blockSignals(true), append str plus a
newline, flush, and call file_watch.blockSignals(false).  The function is
synchronous and processes no events, and QFileSystemWatcher delivers its
fileChanged for this modification through the event loop only after the
function has returned — with signals unblocked again — so the bracket
suppresses nothing: the pending notification is delivered afterwards by
notifyWatch on the resulting state (watchBlocked is false again by then). -/
def writeToFifo (s : CmdState) (str : String) : CmdState × List Signal :=
  if !s.fifoExists then (s, [])
  else
    ({ s with fifoContent := s.fifoContent ++ str ++ "\n", watchBlocked := false }, [])

/-- A write to the fifo file performed by an external process: the content
grows and the watcher's fileChanged is then delivered for it. -/
def externalFifoWrite (s : CmdState) (str : String) : CmdState × List Signal :=
  notifyWatch { s with fifoContent := s.fifoContent ++ str }

/-- QFileSystemWatcher::addPath: register a path, keeping the list duplicate
free. -/
def addPath (paths : List String) (p : String) : List String :=
  if paths.contains p then paths else paths ++ [p]

/-- Cmd::connectFifo (cmd.cpp 226-240): if the stored file name differs, call
fifo.setFileName(file_name) — QFile::setFileName on an open file warns and
closes it, so a rename also closes the handle; if the file is (still) open
return true; otherwise try to open it read-write (creating it, openOk
parametrises OS success), and on success register the watch on the path,
connect fileChanged to fifoChanged and return true; return false if the open
failed. -/
def connectFifo (s : CmdState) (file_name : String) (openOk : Bool) : Bool × CmdState :=
  let s0 := if s.fifoFileName ≠ file_name then
      { s with fifoFileName := file_name, fifoOpen := false }
    else s
  if s0.fifoOpen then (true, s0)
  else if openOk then
    (true, { s0 with fifoOpen := true, fifoExists := true,
                     watchPaths := addPath s0.watchPaths file_name,
                     watchConnected := true })
  else (false, s0)

/-- Cmd::disconnectFifo (cmd.cpp 242-248): if the fifo is open, disconnect all
of the watcher's signal connections (QObject::disconnect, which does not remove
the registered paths) and close the file. -/
def disconnectFifo (s : CmdState) : CmdState :=
  if s.fifoOpen then { s with watchConnected := false, fifoOpen := false }
  else s

/-- Cmd::run lines 59-74: reset est_duration, the tick counter and both
buffers, start the child (QProcess resets its exit code and status on start),
emit started, and start the timer with the slowtick-dependent interval. -/
def runStartState (s : CmdState) (est_duration : Int) (options : List String)
    (child : ChildBehavior) : CmdState :=
  { s with est_duration := est_duration, elapsed_time := 0, out := "", err := "",
           procRunning := true, processId := child.pid,
           exitCode := 0, exitStatus := ExitStatus.NormalExit,
           timerActive := true,
           timerInterval := if options.contains "slowtick" then 1000 else 100 }

/-- The nested QEventLoop of Cmd::run (cmd.cpp 76-85): process the delivered
events in order.  A terminate()/kill() made from a slot runs the member
function; if it brings the child down, QProcess emits finished, which quits
the loop (connection at line 77), discarding the rest of the trace.  When the
trace is exhausted the child exits naturally with the given code and status,
which also quits the loop. -/
def runLoop : CmdState → List LoopEvent → Int → ExitStatus → CmdState × List Signal
  | s, [], code, status => (childDeath s code status, [])
  | s, .stdoutData chunk :: rest, code, status =>
    let r := onStdoutAvailable s chunk
    let r2 := runLoop r.1 rest code status
    (r2.1, r.2 ++ r2.2)
  | s, .stderrData chunk :: rest, code, status =>
    let r := onStderrAvailable s chunk
    let r2 := runLoop r.1 rest code status
    (r2.1, r.2 ++ r2.2)
  | s, .timerTimeout :: rest, code, status =>
    let r := timerTimeoutEvent s
    let r2 := runLoop r.1 rest code status
    (r2.1, r.2 ++ r2.2)
  | s, .callTerminate ack :: rest, code, status =>
    let r := terminate s ack
    if r.2.1.procRunning then
      let r2 := runLoop r.2.1 rest code status
      (r2.1, r.2.2 ++ r2.2)
    else (r.2.1, r.2.2)
  | s, .callKill ack :: rest, code, status =>
    let r := kill s ack
    if r.2.1.procRunning then
      let r2 := runLoop r.2.1 rest code status
      (r2.1, r.2.2 ++ r2.2)
    else (r.2.1, r.2.2)

/-- Cmd::run (cmd.cpp 51-96): return -1 at once when a process is already
running; otherwise reset state, spawn the child, emit started, start the
timer, block in the nested event loop, on unblocking escalate terminate then
kill if the child is somehow still running (lines 88-92), emit finished with
the recorded exit code and status, and return getExitCode. -/
def run (s : CmdState) (cmd_str : String) (options : List String) (est_duration : Int)
    (child : ChildBehavior) : Int × CmdState × List Signal :=
  if isRunning s then (-1, s, [])
  else
    let loopRes := runLoop (runStartState s est_duration options child)
      child.events child.code child.status
    let escRes :=
      if loopRes.1.procRunning then
        let termRes := terminate loopRes.1 child.postTermAck
        if !termRes.1 then
          let killRes := kill termRes.2.1 child.postKillAck
          (killRes.2.1, termRes.2.2 ++ killRes.2.2)
        else (termRes.2.1, termRes.2.2)
      else (loopRes.1, ([] : List Signal))
    (getExitCode escRes.1, escRes.1,
      Signal.started :: loopRes.2 ++ escRes.2
        ++ [Signal.finished escRes.1.exitCode escRes.1.exitStatus])

/-- Events that are not re-entrant control calls. -/
def LoopEvent.isControlCall : LoopEvent → Bool
  | .callTerminate _ => true
  | .callKill _ => true
  | _ => false

/-- A trace in which the child is never brought down by terminate()/kill():
it runs to its natural exit. -/
def naturalEvents (events : List LoopEvent) : Bool :=
  events.all fun e => !e.isControlCall

/-- Concatenation of all stdout chunks of a trace: the stdout of the child. -/
def stdoutConcat : List LoopEvent → String
  | [] => ""
  | .stdoutData chunk :: rest => chunk ++ stdoutConcat rest
  | _ :: rest => stdoutConcat rest

/-- Concatenation of all stderr chunks of a trace: the stderr of the child. -/
def stderrConcat : List LoopEvent → String
  | [] => ""
  | .stderrData chunk :: rest => chunk ++ stderrConcat rest
  | _ :: rest => stderrConcat rest

/-- Number of timer timeouts delivered by a trace. -/
def tickCount : List LoopEvent → Int
  | [] => 0
  | .timerTimeout :: rest => 1 + tickCount rest
  | _ :: rest => tickCount rest

/-- Recogniser for the finished signal. -/
def Signal.isFinishedSignal : Signal → Bool
  | .finished _ _ => true
  | _ => false

/-- Number of finished signals in an emission trace. -/
def countFinished (sigs : List Signal) : Nat :=
  (sigs.filter Signal.isFinishedSignal).length

/-- A freshly constructed Cmd object: nothing running, empty buffers, no fifo. -/
def initState : CmdState :=
  { est_duration := 10, elapsed_time := 0, out := "", err := "",
    procRunning := false, processId := 0, exitCode := 0,
    exitStatus := ExitStatus.NormalExit, timerActive := false, timerInterval := 0,
    fifoFileName := "", fifoOpen := false, fifoExists := false, fifoContent := "",
    watchPaths := [], watchConnected := false, watchBlocked := false }

/-- A Cmd object with a live child (as mid-run, pid 42, timer armed). -/
def runningState : CmdState :=
  { initState with procRunning := true, processId := 42,
                   timerActive := true, timerInterval := 100 }

/-- A child that prints hello and exits normally with code 0. -/
def echoChild : ChildBehavior :=
  { pid := 5, events := [LoopEvent.stdoutData "hello\n", LoopEvent.timerTimeout],
    code := 0, status := ExitStatus.NormalExit,
    postTermAck := { dies := true, code := 0, status := ExitStatus.CrashExit },
    postKillAck := { dies := true, code := 0, status := ExitStatus.CrashExit } }

/-- A child brought down by a re-entrant terminate() call during the run. -/
def termChild : ChildBehavior :=
  { pid := 6, events := [LoopEvent.callTerminate
      { dies := true, code := 0, status := ExitStatus.CrashExit }],
    code := 0, status := ExitStatus.NormalExit,
    postTermAck := { dies := true, code := 0, status := ExitStatus.CrashExit },
    postKillAck := { dies := true, code := 0, status := ExitStatus.CrashExit } }

/-- A child that crashes, with the OS reporting exit code 77. -/
def crashChild : ChildBehavior :=
  { pid := 7, events := [], code := 77, status := ExitStatus.CrashExit,
    postTermAck := { dies := true, code := 0, status := ExitStatus.CrashExit },
    postKillAck := { dies := true, code := 0, status := ExitStatus.CrashExit } }

/-- A state whose fifo is open on path a with the watch registered on a. -/
def openFifoState : CmdState :=
  { initState with fifoFileName := "a", fifoOpen := true, fifoExists := true,
                   watchPaths := ["a"], watchConnected := true }

/-! Helper lemmas. -/

theorem string_empty_append (x : String) : "" ++ x = x := rfl

theorem string_append_assoc (a b c : String) : a ++ b ++ c = a ++ (b ++ c) := by
  show String.mk ((a ++ b).data ++ c.data) = String.mk (a.data ++ (b ++ c).data)
  show String.mk (a.data ++ b.data ++ c.data) = String.mk (a.data ++ (b.data ++ c.data))
  rw [List.append_assoc]

theorem countFinished_append (a b : List Signal) :
    countFinished (a ++ b) = countFinished a + countFinished b := by
  simp [countFinished, List.filter_append]

theorem countFinished_runTime (a b : Int) : countFinished [Signal.runTime a b] = 0 := by
  simp [countFinished, Signal.isFinishedSignal]

theorem countFinished_cons_runTime (a b : Int) (l : List Signal) :
    countFinished (Signal.runTime a b :: l) = countFinished l := by
  simp [countFinished, Signal.isFinishedSignal]

theorem countFinished_cons_started (l : List Signal) :
    countFinished (Signal.started :: l) = countFinished l := by
  simp [countFinished, Signal.isFinishedSignal]

theorem countFinished_finished_single (c : Int) (st : ExitStatus) :
    countFinished [Signal.finished c st] = 1 := by
  simp [countFinished, Signal.isFinishedSignal]

theorem timerEvents_stopped (n : Nat) :
    ∀ s : CmdState, s.timerActive = false → timerEvents n s = (s, []) := by
  induction n with
  | zero => intro s _; rfl
  | succ n ih =>
    intro s h
    simp [timerEvents, timerTimeoutEvent, h, ih s h]

theorem runLoop_natural (events : List LoopEvent) :
    ∀ (s : CmdState) (code : Int) (status : ExitStatus),
      naturalEvents events = true →
      (runLoop s events code status).1.out = s.out ++ stdoutConcat events ∧
      (runLoop s events code status).1.err = s.err ++ stderrConcat events ∧
      (runLoop s events code status).1.exitCode = code ∧
      (runLoop s events code status).1.exitStatus = status ∧
      (runLoop s events code status).1.procRunning = false ∧
      countFinished (runLoop s events code status).2 = 0 := by
  induction events with
  | nil =>
    intro s code status _
    simp [runLoop, childDeath, stdoutConcat, stderrConcat, countFinished]
  | cons e rest ih =>
    intro s code status h
    cases e with
    | stdoutData chunk =>
      have hrest : naturalEvents rest = true := by
        simpa [naturalEvents, LoopEvent.isControlCall] using h
      obtain ⟨h1, h2, h3, h4, h5, h6⟩ :=
        ih { s with out := s.out ++ chunk } code status hrest
      refine ⟨?_, ?_, ?_, ?_, ?_, ?_⟩ <;>
        simp [runLoop, onStdoutAvailable, stdoutConcat, stderrConcat,
          countFinished_append, h1, h2, h3, h4, h5, h6, string_append_assoc] <;>
        split <;> simp [countFinished, Signal.isFinishedSignal]
    | stderrData chunk =>
      have hrest : naturalEvents rest = true := by
        simpa [naturalEvents, LoopEvent.isControlCall] using h
      obtain ⟨h1, h2, h3, h4, h5, h6⟩ :=
        ih { s with err := s.err ++ chunk } code status hrest
      refine ⟨?_, ?_, ?_, ?_, ?_, ?_⟩ <;>
        simp [runLoop, onStderrAvailable, stdoutConcat, stderrConcat,
          countFinished_append, h1, h2, h3, h4, h5, h6, string_append_assoc] <;>
        split <;> simp [countFinished, Signal.isFinishedSignal]
    | timerTimeout =>
      have hrest : naturalEvents rest = true := by
        simpa [naturalEvents, LoopEvent.isControlCall] using h
      cases ht : s.timerActive with
      | false =>
        obtain ⟨h1, h2, h3, h4, h5, h6⟩ := ih s code status hrest
        refine ⟨?_, ?_, ?_, ?_, ?_, ?_⟩ <;>
          simp [runLoop, timerTimeoutEvent, ht, stdoutConcat, stderrConcat,
            countFinished_append, h1, h2, h3, h4, h5, h6]
      | true =>
        have hstep : timerTimeoutEvent s = ({ s with elapsed_time := s.elapsed_time + 1 },
            [Signal.runTime (s.elapsed_time + 1) s.est_duration]) := by
          simp [timerTimeoutEvent, ht, tick]
        obtain ⟨h1, h2, h3, h4, h5, h6⟩ :=
          ih { s with elapsed_time := s.elapsed_time + 1 } code status hrest
        refine ⟨?_, ?_, ?_, ?_, ?_, ?_⟩ <;>
          simp [runLoop, hstep, stdoutConcat, stderrConcat,
            countFinished_append, h1, h2, h3, h4, h5, h6, countFinished_cons_runTime]
    | callTerminate ack =>
      simp [naturalEvents, LoopEvent.isControlCall] at h
    | callKill ack =>
      simp [naturalEvents, LoopEvent.isControlCall] at h

theorem runLoop_natural_elapsed (events : List LoopEvent) :
    ∀ (s : CmdState) (code : Int) (status : ExitStatus),
      naturalEvents events = true → s.timerActive = true →
      (runLoop s events code status).1.elapsed_time = s.elapsed_time + tickCount events := by
  induction events with
  | nil =>
    intro s code status _ _
    simp [runLoop, childDeath, tickCount]
  | cons e rest ih =>
    intro s code status h ht
    cases e with
    | stdoutData chunk =>
      have hrest : naturalEvents rest = true := by
        simpa [naturalEvents, LoopEvent.isControlCall] using h
      have := ih { s with out := s.out ++ chunk } code status hrest ht
      simp [runLoop, onStdoutAvailable, tickCount, this]
    | stderrData chunk =>
      have hrest : naturalEvents rest = true := by
        simpa [naturalEvents, LoopEvent.isControlCall] using h
      have := ih { s with err := s.err ++ chunk } code status hrest ht
      simp [runLoop, onStderrAvailable, tickCount, this]
    | timerTimeout =>
      have hrest : naturalEvents rest = true := by
        simpa [naturalEvents, LoopEvent.isControlCall] using h
      have hstep : timerTimeoutEvent s = ({ s with elapsed_time := s.elapsed_time + 1 },
          [Signal.runTime (s.elapsed_time + 1) s.est_duration]) := by
        simp [timerTimeoutEvent, ht, tick]
      have := ih { s with elapsed_time := s.elapsed_time + 1 } code status hrest ht
      simp [runLoop, hstep, tickCount, this]
      ring
    | callTerminate ack =>
      simp [naturalEvents, LoopEvent.isControlCall] at h
    | callKill ack =>
      simp [naturalEvents, LoopEvent.isControlCall] at h

theorem runLoop_terminated (pre : List LoopEvent) :
    ∀ (s : CmdState) (ack : OsAck) (code : Int) (status : ExitStatus),
      naturalEvents pre = true → s.procRunning = true → ack.dies = true →
      countFinished (runLoop s (pre ++ [LoopEvent.callTerminate ack]) code status).2 = 1 ∧
      (runLoop s (pre ++ [LoopEvent.callTerminate ack]) code status).1.procRunning = false := by
  induction pre with
  | nil =>
    intro s ack code status _ hrun hdies
    simp [runLoop, terminate, isRunning, hrun, hdies, childDeath, countFinished,
      Signal.isFinishedSignal]
  | cons e rest ih =>
    intro s ack code status h hrun hdies
    cases e with
    | stdoutData chunk =>
      have hrest : naturalEvents rest = true := by
        simpa [naturalEvents, LoopEvent.isControlCall] using h
      obtain ⟨h1, h2⟩ := ih { s with out := s.out ++ chunk } ack code status hrest hrun hdies
      refine ⟨?_, ?_⟩ <;>
        simp [runLoop, onStdoutAvailable, countFinished_append, h1, h2] <;>
        split <;> simp [countFinished, Signal.isFinishedSignal]
    | stderrData chunk =>
      have hrest : naturalEvents rest = true := by
        simpa [naturalEvents, LoopEvent.isControlCall] using h
      obtain ⟨h1, h2⟩ := ih { s with err := s.err ++ chunk } ack code status hrest hrun hdies
      refine ⟨?_, ?_⟩ <;>
        simp [runLoop, onStderrAvailable, countFinished_append, h1, h2] <;>
        split <;> simp [countFinished, Signal.isFinishedSignal]
    | timerTimeout =>
      have hrest : naturalEvents rest = true := by
        simpa [naturalEvents, LoopEvent.isControlCall] using h
      cases ht : s.timerActive with
      | false =>
        obtain ⟨h1, h2⟩ := ih s ack code status hrest hrun hdies
        refine ⟨?_, ?_⟩ <;>
          simp [runLoop, timerTimeoutEvent, ht, countFinished_append, h1, h2]
      | true =>
        have hstep : timerTimeoutEvent s = ({ s with elapsed_time := s.elapsed_time + 1 },
            [Signal.runTime (s.elapsed_time + 1) s.est_duration]) := by
          simp [timerTimeoutEvent, ht, tick]
        obtain ⟨h1, h2⟩ :=
          ih { s with elapsed_time := s.elapsed_time + 1 } ack code status hrest hrun hdies
        refine ⟨?_, ?_⟩ <;>
          simp [runLoop, hstep, countFinished_append, h1, h2, countFinished_cons_runTime]
    | callTerminate ack2 =>
      simp [naturalEvents, LoopEvent.isControlCall] at h
    | callKill ack2 =>
      simp [naturalEvents, LoopEvent.isControlCall] at h

theorem runLoop_killed (pre : List LoopEvent) :
    ∀ (s : CmdState) (ack : OsAck) (code : Int) (status : ExitStatus),
      naturalEvents pre = true → s.procRunning = true → ack.dies = true →
      countFinished (runLoop s (pre ++ [LoopEvent.callKill ack]) code status).2 = 1 ∧
      (runLoop s (pre ++ [LoopEvent.callKill ack]) code status).1.procRunning = false := by
  induction pre with
  | nil =>
    intro s ack code status _ hrun hdies
    simp [runLoop, kill, isRunning, hrun, hdies, childDeath, countFinished,
      Signal.isFinishedSignal]
  | cons e rest ih =>
    intro s ack code status h hrun hdies
    cases e with
    | stdoutData chunk =>
      have hrest : naturalEvents rest = true := by
        simpa [naturalEvents, LoopEvent.isControlCall] using h
      obtain ⟨h1, h2⟩ := ih { s with out := s.out ++ chunk } ack code status hrest hrun hdies
      refine ⟨?_, ?_⟩ <;>
        simp [runLoop, onStdoutAvailable, countFinished_append, h1, h2] <;>
        split <;> simp [countFinished, Signal.isFinishedSignal]
    | stderrData chunk =>
      have hrest : naturalEvents rest = true := by
        simpa [naturalEvents, LoopEvent.isControlCall] using h
      obtain ⟨h1, h2⟩ := ih { s with err := s.err ++ chunk } ack code status hrest hrun hdies
      refine ⟨?_, ?_⟩ <;>
        simp [runLoop, onStderrAvailable, countFinished_append, h1, h2] <;>
        split <;> simp [countFinished, Signal.isFinishedSignal]
    | timerTimeout =>
      have hrest : naturalEvents rest = true := by
        simpa [naturalEvents, LoopEvent.isControlCall] using h
      cases ht : s.timerActive with
      | false =>
        obtain ⟨h1, h2⟩ := ih s ack code status hrest hrun hdies
        refine ⟨?_, ?_⟩ <;>
          simp [runLoop, timerTimeoutEvent, ht, countFinished_append, h1, h2]
      | true =>
        have hstep : timerTimeoutEvent s = ({ s with elapsed_time := s.elapsed_time + 1 },
            [Signal.runTime (s.elapsed_time + 1) s.est_duration]) := by
          simp [timerTimeoutEvent, ht, tick]
        obtain ⟨h1, h2⟩ :=
          ih { s with elapsed_time := s.elapsed_time + 1 } ack code status hrest hrun hdies
        refine ⟨?_, ?_⟩ <;>
          simp [runLoop, hstep, countFinished_append, h1, h2, countFinished_cons_runTime]
    | callTerminate ack2 =>
      simp [naturalEvents, LoopEvent.isControlCall] at h
    | callKill ack2 =>
      simp [naturalEvents, LoopEvent.isControlCall] at h

theorem addPath_mem (paths : List String) (p : String) : p ∈ addPath paths p := by
  unfold addPath
  split
  · next h => simpa using h
  · simp

theorem run_ret_getExitCode (s : CmdState) (cmd_str : String) (options : List String)
    (est_duration : Int) (child : ChildBehavior) (hidle : s.procRunning = false) :
    (run s cmd_str options est_duration child).1 =
      getExitCode (run s cmd_str options est_duration child).2.1 := by
  simp [run, isRunning, hidle]

theorem addPath_contains (paths : List String) (p : String) :
    (addPath paths p).contains p = true := by
  unfold addPath
  split
  · assumption
  · simp

/-! Claim theorems. -/

/-- C1: for every command whose child exits normally with exit code K, run
returns K and getOutput afterwards equals the whitespace-trimmed stdout of the
child; the stdout/stderr buffers and the elapsed-tick counter are cleared at
the start of the run, so the conclusion is independent of the buffers and
counter of the initial state: it holds for every sequential run on the same
supervisor instance (s is arbitrary apart from having no live child). -/
theorem run_normal_exit (s : CmdState) (cmd_str : String) (options : List String)
    (est_duration K : Int) (child : ChildBehavior)
    (hidle : s.procRunning = false) (hnat : naturalEvents child.events = true)
    (hstatus : child.status = ExitStatus.NormalExit) (hcode : child.code = K) :
    (run s cmd_str options est_duration child).1 = K ∧
    getOutput (run s cmd_str options est_duration child).2.1 =
      trimmed (stdoutConcat child.events) ∧
    getError (run s cmd_str options est_duration child).2.1 =
      trimmed (stderrConcat child.events) ∧
    (run s cmd_str options est_duration child).2.1.elapsed_time =
      tickCount child.events := by
  obtain ⟨h1, h2, h3, h4, h5, h6⟩ :=
    runLoop_natural child.events (runStartState s est_duration options child)
      child.code child.status hnat
  have helapsed :=
    runLoop_natural_elapsed child.events (runStartState s est_duration options child)
      child.code child.status hnat rfl
  have ho : (runStartState s est_duration options child).out = "" := rfl
  have he : (runStartState s est_duration options child).err = "" := rfl
  have hz : (runStartState s est_duration options child).elapsed_time = 0 := rfl
  rw [ho, string_empty_append] at h1
  rw [he, string_empty_append] at h2
  rw [hz, zero_add] at helapsed
  rw [hcode, hstatus] at h1 h2 h3 h4 h5 helapsed
  refine ⟨?_, ?_, ?_, ?_⟩
  · simp [run, isRunning, hidle, hcode, hstatus, h5, getExitCode, h4, h3, ExitStatus.toInt]
  · simp [run, isRunning, hidle, hcode, hstatus, h5, getOutput, h1]
  · simp [run, isRunning, hidle, hcode, hstatus, h5, getError, h2]
  · simp [run, isRunning, hidle, hcode, hstatus, h5, helapsed]

/-- C1 witness: run on a child that prints hello and exits with code 0 returns
0, and getOutput afterwards is the trimmed stdout, hello. -/
theorem run_normal_exit_witness :
    (run initState "echo hello" [] 10 echoChild).1 = 0 ∧
    getOutput (run initState "echo hello" [] 10 echoChild).2.1 = "hello" := by
  obtain ⟨a, b, _, _⟩ :=
    run_normal_exit initState "echo hello" [] 10 0 echoChild rfl rfl rfl rfl
  refine ⟨a, ?_⟩
  rw [b]
  decide

/-- C2: run invoked while a child process is live returns the sentinel -1 at
once, with no state change (in particular the buffers and the elapsed-tick
counter of the in-flight run are untouched) and no signal emitted. -/
theorem run_while_running_noop (s : CmdState) (cmd_str : String) (options : List String)
    (est_duration : Int) (child : ChildBehavior) (h : s.procRunning = true) :
    run s cmd_str options est_duration child = (-1, s, []) := by
  simp [run, isRunning, h]

/-- C2 witness: run on a state with a live child is the sentinel no-op. -/
theorem run_while_running_noop_witness :
    run runningState "echo hi" [] 10 echoChild = (-1, runningState, []) :=
  run_while_running_noop runningState "echo hi" [] 10 echoChild rfl

/-- C3: getExitCode checks the exit-status kind before the exit code: when the
child crashed, the non-zero numeric crash status is returned (even when the
exit code is 0, since the conclusion holds for every state with crash status);
only when the status kind is NormalExit is the exit code returned. -/
theorem getExitCode_checks_status (s : CmdState) :
    (s.exitStatus = ExitStatus.CrashExit →
      getExitCode s = ExitStatus.CrashExit.toInt ∧ ExitStatus.CrashExit.toInt ≠ 0) ∧
    (s.exitStatus = ExitStatus.NormalExit → getExitCode s = s.exitCode) := by
  constructor
  · intro h
    refine ⟨?_, by decide⟩
    simp [getExitCode, h, ExitStatus.toInt]
  · intro h
    simp [getExitCode, h, ExitStatus.toInt]

/-- C3 witness: crash status with exit code 0 yields 1; normal exit with exit
code 7 yields 7. -/
theorem getExitCode_checks_status_witness :
    getExitCode { runningState with exitStatus := ExitStatus.CrashExit, exitCode := 0 } = 1 ∧
    getExitCode { runningState with exitStatus := ExitStatus.NormalExit, exitCode := 7 } = 7 := by
  constructor
  · exact ((getExitCode_checks_status
      { runningState with exitStatus := ExitStatus.CrashExit, exitCode := 0 }).1 rfl).1
  · exact (getExitCode_checks_status
      { runningState with exitStatus := ExitStatus.NormalExit, exitCode := 7 }).2 rfl

/-- C4 counterexample: on a run whose child is brought down by a re-entrant
terminate() call, the finished signal is emitted twice — once by terminate
(cmd.cpp line 120) and once more by run itself (line 94) — refuting that the
notification fires exactly once per run regardless of the path. -/
theorem finished_twice_counterexample :
    countFinished (run initState "sleep 1000" [] 10 termChild).2.2 ≠ 1 := by
  decide

/-- C4 (amended): the finished signal fires exactly once on a run whose child
exits naturally; when the child is brought down by a terminate() or kill()
call during the run, the control call emits finished and run emits it once
more, so it fires exactly twice on such runs. -/
theorem finished_signal_count (s : CmdState) (cmd_str : String) (options : List String)
    (est_duration : Int) (child : ChildBehavior) (pre : List LoopEvent) (ack : OsAck)
    (hidle : s.procRunning = false) :
    (naturalEvents child.events = true →
      countFinished (run s cmd_str options est_duration child).2.2 = 1) ∧
    (child.events = pre ++ [LoopEvent.callTerminate ack] → naturalEvents pre = true →
      ack.dies = true →
      countFinished (run s cmd_str options est_duration child).2.2 = 2) ∧
    (child.events = pre ++ [LoopEvent.callKill ack] → naturalEvents pre = true →
      ack.dies = true →
      countFinished (run s cmd_str options est_duration child).2.2 = 2) := by
  refine ⟨?_, ?_, ?_⟩
  · intro hnat
    obtain ⟨h1, h2, h3, h4, h5, h6⟩ :=
      runLoop_natural child.events (runStartState s est_duration options child)
        child.code child.status hnat
    simp [run, isRunning, hidle, h5, h6, countFinished_cons_started,
      countFinished_append, countFinished_finished_single]
  · intro heq hpre hdies
    obtain ⟨k1, k2⟩ :=
      runLoop_terminated pre (runStartState s est_duration options child) ack
        child.code child.status hpre rfl hdies
    simp [run, isRunning, hidle, heq, k1, k2, countFinished_cons_started,
      countFinished_append, countFinished_finished_single]
  · intro heq hpre hdies
    obtain ⟨k1, k2⟩ :=
      runLoop_killed pre (runStartState s est_duration options child) ack
        child.code child.status hpre rfl hdies
    simp [run, isRunning, hidle, heq, k1, k2, countFinished_cons_started,
      countFinished_append, countFinished_finished_single]

/-- C4 witness: the finished signal fires once on a natural-exit run and twice
on a run whose child is brought down by a re-entrant terminate(). -/
theorem finished_signal_count_witness :
    countFinished (run initState "sleep 60" [] 10 echoChild).2.2 = 1 ∧
    countFinished (run initState "sleep 60" [] 10 termChild).2.2 = 2 := by
  constructor
  · exact (finished_signal_count initState "sleep 60" [] 10 echoChild []
      { dies := true, code := 0, status := ExitStatus.CrashExit } rfl).1 rfl
  · exact (finished_signal_count initState "sleep 60" [] 10 termChild []
      { dies := true, code := 0, status := ExitStatus.CrashExit } rfl).2.1 rfl rfl rfl

/-- C5: kill() and terminate() called while no child is live each return true
and have no observable side effect: the state is unchanged (no signal sent to
any process, no buffer change) and no signal — in particular no finished
notification — is emitted. -/
theorem kill_terminate_idle_noop (s : CmdState) (ack1 ack2 : OsAck)
    (h : s.procRunning = false) :
    kill s ack1 = (true, s, []) ∧ terminate s ack2 = (true, s, []) := by
  constructor <;> simp [kill, terminate, isRunning, h]

/-- C5 witness: kill and terminate on an idle supervisor are no-ops returning
true. -/
theorem kill_terminate_idle_noop_witness :
    kill initState { dies := true, code := 0, status := ExitStatus.CrashExit } =
      (true, initState, []) ∧
    terminate initState { dies := true, code := 0, status := ExitStatus.CrashExit } =
      (true, initState, []) :=
  kill_terminate_idle_noop initState
    { dies := true, code := 0, status := ExitStatus.CrashExit }
    { dies := true, code := 0, status := ExitStatus.CrashExit } rfl

/-- C6: pause() with no live child returns false and does nothing; with a live
child it stops the ticker — across any number of timer timeouts no runTime
signal fires and the elapsed-tick count does not advance, until resume()
re-arms the ticker — and it returns whether the SIGSTOP dispatch succeeded. -/
theorem pause_semantics (s : CmdState) (stopSignalOk contSignalOk : Bool) (n : Nat) :
    (s.procRunning = false → pause s stopSignalOk = (false, s)) ∧
    (s.procRunning = true →
      (pause s stopSignalOk).1 = stopSignalOk ∧
      (pause s stopSignalOk).2.timerActive = false ∧
      timerEvents n (pause s stopSignalOk).2 = ((pause s stopSignalOk).2, []) ∧
      ((pause s stopSignalOk).2.processId ≠ 0 →
        (resume (pause s stopSignalOk).2 contSignalOk).2.timerActive = true)) := by
  refine ⟨?_, ?_⟩
  · intro h
    simp [pause, isRunning, h]
  · intro h
    have hp : pause s stopSignalOk = (stopSignalOk, { s with timerActive := false }) := by
      simp [pause, isRunning, h]
    refine ⟨by simp [hp], by simp [hp], ?_, ?_⟩
    · rw [hp]
      exact timerEvents_stopped n { s with timerActive := false } rfl
    · intro hpid
      rw [hp] at hpid ⊢
      simp [resume, hpid]

/-- C6 witness: pausing a running supervisor succeeds, disarms the ticker, five
timer timeouts deliver nothing and change nothing, and resume re-arms it. -/
theorem pause_semantics_witness :
    (pause runningState true).1 = true ∧
    (pause runningState true).2.timerActive = false ∧
    timerEvents 5 (pause runningState true).2 = ((pause runningState true).2, []) ∧
    (resume (pause runningState true).2 true).2.timerActive = true := by
  obtain ⟨a, b, c, d⟩ := (pause_semantics runningState true true 5).2 rfl
  exact ⟨a, b, c, d (by decide)⟩

/-- C7: failing-input evaluation of the self-write path.  writeToFifo("pong")
on an existing, open, watched fifo emits nothing during the call itself and
leaves the watcher's signals unblocked (the blockSignals bracket has already
been closed by the time the call returns), and the watcher's fileChanged for
that very modification — delivered by the event loop only after the call — then
emits fifoChangeAvailable("pong"): the supervisor's own write does trigger the
external-change notification path, so the anti-feedback invariant the spec
states fails on the code. -/
theorem writeToFifo_self_notifies :
    (writeToFifo openFifoState "pong").2 = [] ∧
    (writeToFifo openFifoState "pong").1.watchBlocked = false ∧
    (notifyWatch (writeToFifo openFifoState "pong").1).2 =
      [Signal.fifoChangeAvailable "pong"] := by
  decide

/-- Sanity check of the watcher model (not a claim): an external write to a
watched, open, non-blocked fifo emits fifoChangeAvailable exactly as the
deferred delivery after a self-write does. -/
theorem externalFifoWrite_notifies :
    (externalFifoWrite openFifoState "ping\n").2 = [Signal.fifoChangeAvailable "ping"] := by
  decide

/-- C8: connectFifo is idempotent when the fifo is already open on the same
path — it returns true with no further effect at all; otherwise (fifo not
open, or open on a different path, which QFile::setFileName closes when it
renames) it opens the file read-write (creating it), registers a filesystem
watch on the path, connects the watcher and returns true; and it returns
false if and only if that open fails. -/
theorem connectFifo_spec (s : CmdState) (file_name : String) (openOk : Bool) :
    (s.fifoOpen = true → s.fifoFileName = file_name →
      connectFifo s file_name openOk = (true, s)) ∧
    ((s.fifoOpen = false ∨ s.fifoFileName ≠ file_name) → openOk = true →
      (connectFifo s file_name openOk).1 = true ∧
      (connectFifo s file_name openOk).2.fifoOpen = true ∧
      (connectFifo s file_name openOk).2.fifoExists = true ∧
      (connectFifo s file_name openOk).2.fifoFileName = file_name ∧
      (connectFifo s file_name openOk).2.watchPaths.contains file_name = true ∧
      (connectFifo s file_name openOk).2.watchConnected = true) ∧
    ((connectFifo s file_name openOk).1 = false ↔
      (openOk = false ∧ (s.fifoOpen = false ∨ s.fifoFileName ≠ file_name))) := by
  refine ⟨?_, ?_, ?_⟩
  · intro hopen hname
    simp [connectFifo, hname, hopen]
  · intro hcase hok
    rcases hcase with hopen | hname
    · by_cases hn : s.fifoFileName = file_name <;>
        simp [connectFifo, hn, hopen, hok, addPath_contains, addPath_mem]
    · simp [connectFifo, hname, hok, addPath_contains, addPath_mem]
  · by_cases hn : s.fifoFileName = file_name
    · cases hopen : s.fifoOpen <;> cases hok : openOk <;>
        simp [connectFifo, hn, hopen, hok]
    · cases hok : openOk <;> simp [connectFifo, hn, hok]

/-- C8 witness: idempotent no-op success on a fifo open on the same path; a
connect to a different path while open reopens that path and watches it; a
fresh connect opens and watches; a failed open reports false. -/
theorem connectFifo_spec_witness :
    connectFifo openFifoState "a" true = (true, openFifoState) ∧
    (connectFifo openFifoState "b" true).2.fifoOpen = true ∧
    (connectFifo openFifoState "b" true).2.watchPaths.contains "b" = true ∧
    (connectFifo initState "p" true).1 = true ∧
    (connectFifo initState "p" false).1 = false := by
  refine ⟨(connectFifo_spec openFifoState "a" true).1 rfl rfl, ?_, ?_, ?_, ?_⟩
  · exact ((connectFifo_spec openFifoState "b" true).2.1 (Or.inr (by decide)) rfl).2.1
  · exact ((connectFifo_spec openFifoState "b" true).2.1 (Or.inr (by decide)) rfl).2.2.2.2.1
  · exact ((connectFifo_spec initState "p" true).2.1 (Or.inl rfl) rfl).1
  · exact ((connectFifo_spec initState "p" false).2.2).mpr ⟨rfl, Or.inl rfl⟩

/-- C9 counterexample: connecting a fifo and then disconnecting it leaves a
reachable state whose fifo is closed while the path p is still registered with
the filesystem watcher (disconnectFifo calls QObject::disconnect, which drops
the signal connections, but never removePath), refuting that a watch
registration exists only while the fifo is open. -/
theorem disconnectFifo_watch_leak_counterexample :
    (disconnectFifo (connectFifo initState "p" true).2).fifoOpen = false ∧
    (disconnectFifo (connectFifo initState "p" true).2).watchPaths.contains "p" = true := by
  decide

/-- C9 (amended): a successful fresh open by connectFifo establishes the open
handle, the path registration and the watcher's signal connection together;
disconnectFifo closes the handle and removes the signal connections together,
but it never removes the path registration — the watcher's path list is left
unchanged — so after a disconnect the path remains registered while the fifo
is closed, and no iff between watch registration and an open fifo holds. -/
theorem fifo_watch_lifecycle (s : CmdState) (file_name : String) (openOk : Bool) :
    ((s.fifoOpen = false ∨ s.fifoFileName ≠ file_name) → openOk = true →
      (connectFifo s file_name openOk).2.fifoOpen = true ∧
      (connectFifo s file_name openOk).2.watchPaths.contains file_name = true ∧
      (connectFifo s file_name openOk).2.watchConnected = true) ∧
    (disconnectFifo s).fifoOpen = false ∧
    (s.fifoOpen = true → (disconnectFifo s).watchConnected = false) ∧
    (disconnectFifo s).watchPaths = s.watchPaths := by
  refine ⟨?_, ?_, ?_, ?_⟩
  · intro hcase hok
    rcases hcase with hopen | hname
    · by_cases hn : s.fifoFileName = file_name <;>
        simp [connectFifo, hn, hopen, hok, addPath_contains, addPath_mem]
    · simp [connectFifo, hname, hok, addPath_contains, addPath_mem]
  · cases hopen : s.fifoOpen <;> simp [disconnectFifo, hopen]
  · intro hopen
    simp [disconnectFifo, hopen]
  · cases hopen : s.fifoOpen <;> simp [disconnectFifo, hopen]

/-- C9 witness: a fresh connect establishes open handle, registration and
connection together; the following disconnect closes and disconnects but
leaves the path list unchanged. -/
theorem fifo_watch_lifecycle_witness :
    (connectFifo initState "p" true).2.fifoOpen = true ∧
    (connectFifo initState "p" true).2.watchPaths.contains "p" = true ∧
    (connectFifo initState "p" true).2.watchConnected = true ∧
    (disconnectFifo (connectFifo initState "p" true).2).fifoOpen = false ∧
    (disconnectFifo (connectFifo initState "p" true).2).watchConnected = false ∧
    (disconnectFifo (connectFifo initState "p" true).2).watchPaths =
      (connectFifo initState "p" true).2.watchPaths := by
  obtain ⟨a, b, c⟩ := (fifo_watch_lifecycle initState "p" true).1 (Or.inl rfl) rfl
  obtain ⟨d, e, f⟩ := (fifo_watch_lifecycle (connectFifo initState "p" true).2 "q" true).2
  exact ⟨a, b, c, d, e a, f⟩

/-- C10: whenever the final state of a run records crash status, run returns
the numeric value of the CrashExit status kind itself — 1 — regardless of the
exit code the OS reported for the child. -/
theorem run_crash_returns_one (s : CmdState) (cmd_str : String) (options : List String)
    (est_duration : Int) (child : ChildBehavior) (hidle : s.procRunning = false)
    (hcrash : (run s cmd_str options est_duration child).2.1.exitStatus =
      ExitStatus.CrashExit) :
    (run s cmd_str options est_duration child).1 = 1 := by
  rw [run_ret_getExitCode s cmd_str options est_duration child hidle]
  simp [getExitCode, hcrash, ExitStatus.toInt]

/-- C10 witness: a crashing child whose OS-reported exit code is 77 still makes
run return 1. -/
theorem run_crash_returns_one_witness :
    (run initState "kill -SEGV $$" [] 10 crashChild).1 = 1 :=
  run_crash_returns_one initState "kill -SEGV $$" [] 10 crashChild rfl (by decide)

end Libcmd
